import Mathlib

/-!
# Verification of the hermit analyze phase pipeline

This file gives a shallow embedding of `hermit-cli/src/bin/hermit/analyze/phases.rs`
and proves properties of its phases: the criterion oracle, the base run
configuration, the search loop, the baseline chooser (phase 4), and the
reporter (phase 6).

Modelling conventions:
* A `PreemptionRecord` is abstracted to its ordered list of preemptions
  (`List Nat`); `with_latest_preempt_removed` is `List.dropLast` and
  `strip_contents` yields `[]`.
* The deterministic runtime is a black-box oracle: by invariant I3 the
  outcome of replaying a record (or schedule) is a function of the record, so
  the subprocess is modelled by Boolean-valued oracle fields in `Env`.
* File-system side effects are made observable as an event trace (`Ev`):
  each modelled function returns its list of events together with its result.
* Fallible Rust paths (`bail!`, `assert!`, `todo!`, arithmetic-overflow
  panics) are modelled with `Except String`.
* Unbounded `loop`s are modelled with explicit fuel; running out of fuel
  yields a distinguished error that no real execution produces.
-/

set_option autoImplicit false

namespace HermitAnalyze

/-! ## Criterion oracle (`output_matches`, phases.rs lines 976-1008) -/

/-- Exit-status constraint of the criterion (declared in analyze/types.rs). -/
inductive ExitStatusConstraint where
  | Exact : Int → ExitStatusConstraint
  | NonZero : ExitStatusConstraint
  | Any : ExitStatusConstraint
deriving DecidableEq

/-- Modelled from the spec: `ExitStatusConstraint::is_match` lives in
analyze/types.rs, which is not under src/. Per the spec (section 3), the
exit-code constraint is one of Exact(n), NonZero, Any, and a run matches the
constraint when the exit code is exactly n, nonzero, or anything at all
respectively. -/
def ExitStatusConstraint.is_match : ExitStatusConstraint → Int → Bool
  | .Exact n, status => status == n
  | .NonZero, status => status != 0
  | .Any, _ => true

/-- Captured output of one run: raw stream bytes plus the raw exit status. -/
structure Output where
  stdout : List Nat
  stderr : List Nat
  status : Int

/-- The criterion part of `AnalyzeOpts`. A regular expression is abstracted
to its `is_match` predicate on decoded strings. -/
structure Criteria where
  target_stdout : Option (String → Bool)
  target_stderr : Option (String → Bool)
  target_exit_code : ExitStatusConstraint

/-- Translation of `AnalyzeOpts::output_matches` (phases.rs lines 976-1008).
`utf8Lossy` models `String::from_utf8_lossy`, applied to the captured stream
bytes before pattern matching. The verbose `eprintln!` diagnostics in the
source have no effect on the returned value and are omitted. -/
def output_matches (utf8Lossy : List Nat → String) (c : Criteria) (out : Output) : Bool :=
  let answer := true
  let answer :=
    match c.target_stdout with
    | some pat => if !pat (utf8Lossy out.stdout) then false else answer
    | none => answer
  let answer :=
    match c.target_stderr with
    | some pat => if !pat (utf8Lossy out.stderr) then false else answer
    | none => answer
  let answer :=
    if !c.target_exit_code.is_match out.status then false else answer
  answer

/-- Translation of `AnalyzeOpts::has_filters` (phases.rs lines 250-254). -/
def has_filters (c : Criteria) : Bool :=
  c.target_stdout.isSome || c.target_stderr.isSome
    || decide (c.target_exit_code ≠ ExitStatusConstraint.Any)

/-! ## Base run configuration (`get_base_runopts`, phases.rs lines 256-282) -/

/-- The semantically meaningful slice of `DetConfig` used by
`get_base_runopts`. -/
structure DetConfig where
  sequentialize_threads : Bool
  chaos : Bool
deriving DecidableEq

/-- The slice of `RunOpts` used by `get_base_runopts`. -/
structure RunOpts where
  no_sequentialize_threads : Bool
  det_config : DetConfig
  bind : List String
deriving DecidableEq

/-- Modelled from the spec: the CLI parse `RunOpts::from_iter` lives in
run.rs, which is not under src/. The spec (sections 3 and 5) lists
`sequentialize_threads` as a RunOpts field that the `--no-sequentialize-threads`
flag disables and `chaos` as the chaos-mode flag. -/
def parse_run_args (run_args : List String) : RunOpts :=
  let noseq := run_args.contains "--no-sequentialize-threads"
  { no_sequentialize_threads := noseq
    det_config := { sequentialize_threads := !noseq, chaos := run_args.contains "--chaos" }
    bind := [] }

/-- Modelled from the spec: `RunOpts::validate_args` lives in run.rs, which is
not under src/. Per the determinism contract (spec section 5) and the
`assert!` at phases.rs line 270, validation derives the effective
`sequentialize_threads` field as the negation of the
`--no-sequentialize-threads` flag. -/
def validate_args (ro : RunOpts) : RunOpts :=
  { ro with det_config := { ro.det_config with sequentialize_threads := !ro.no_sequentialize_threads } }

/-- Translation of `AnalyzeOpts::get_base_runopts` (phases.rs lines 256-282):
parse run_args, bail on `--no-sequentialize-threads`, validate, assert
`sequentialize_threads`, then push the workspace bind (which re-validates,
via `runopts_add_binds`, phases.rs lines 223-229). The `--run1-seed` chaos
warning only prints and is omitted. The Rust `assert!` panic is modelled as
an error. -/
def get_base_runopts (run_args : List String) (tmpDir : String) : Except String RunOpts :=
  let ro := parse_run_args run_args
  if ro.no_sequentialize_threads then
    .error "Error, cannot search through executions with --no-sequentialize-threads.  Determinism required."
  else
    let ro := validate_args ro
    if !ro.det_config.sequentialize_threads then
      .error "assertion failed: sequentialize_threads"
    else
      let ro := validate_args { ro with bind := ro.bind ++ [tmpDir] }
      .ok ro

/-! ## Event-trace model of the pipeline

A `PreemptionRecord` is abstracted to its ordered preemption list.
`with_latest_preempt_removed` drops the last preemption (spec property P7)
and `strip_contents` empties the list. -/

/-- Ordered preemption list standing for a detcore `PreemptionRecord`. -/
abbrev PreemptRec := List Nat

/-- Observable file-system and subprocess events of the analyzer.
`writeEv writer path` records which modelled function wrote which artifact
path; `replayEv runname record recordTo` is one run replaying the given
preemption record, recording schedule events to `recordTo` when present. -/
inductive Ev where
  | validateEv : PreemptRec → Ev
  | writeEv : String → String → Ev
  | replayEv : String → PreemptRec → Option String → Ev
  | copyEv : String → String → Ev
  | recordEv : String → Ev
  | printEv : String → Ev
  | launchEv : Nat → Nat → Ev
deriving DecidableEq

/-- Black-box oracle environment for the deterministic runtime and the file
system. By determinism invariant I3 the outcome of a replay is a function of
the replayed record (or schedule, or chaos seed). -/
structure Env where
  replayMatches : PreemptRec → Bool
  schedMatches : List Nat → Bool
  validateOk : PreemptRec → Bool
  load : String → PreemptRec
  fileContents : String → String
  run1InitialMatches : Bool
  searchMatches : Nat → Bool
  rng : Nat → Nat → Nat
  entropy : Nat

/-- Translation of `AnalyzeOpts::preempts_path` (phases.rs lines 74-77). -/
def preemptsPath (tmpDir runname : String) : String :=
  tmpDir ++ "/" ++ runname ++ "." ++ "preempts"

/-- Translation of `AnalyzeOpts::log_path` (phases.rs lines 69-72). -/
def logPath (tmpDir runname : String) : String :=
  tmpDir ++ "/" ++ runname ++ "." ++ "log"

/-- Artifact path with the schedule-events extension (phases.rs line 62). -/
def schedEventsFile (tmpDir runname : String) : String :=
  tmpDir ++ "/" ++ runname ++ "." ++ "events"

/-- The analyze arguments relevant to phases 1 and 4 and the searcher. -/
structure AnalyzeArgs where
  run1_seed : Option Nat
  run1_preemptions : Option String
  run2_seed : Option Nat
  run2_preemptions : Option String
  minimize : Bool
  selfcheck : Bool
  search : Bool
  analyze_seed : Option Nat

/-- Translation of `save_nearby_non_matching_sched_events` (phases.rs lines
866-931): drop the latest preemption, `validate()` the result (bailing when
corrupt), write it to disk, replay it while recording schedule events to
`sched_events_path`, and return the truncated record when it unexpectedly
still matches the criteria, `none` otherwise. -/
def save_nearby_non_matching_sched_events (env : Env) (tmpDir : String)
    (matching_preempts : PreemptRec) (sched_events_path : String) :
    List Ev × Except String (Option PreemptRec) :=
  let non_matching_preempts := matching_preempts.dropLast
  if env.validateOk non_matching_preempts = false then
    ([Ev.validateEv non_matching_preempts],
      .error "Hermit analyzer produced corrupt nearby non-matching preemption record, cannot proceed.")
  else
    let non_matching_preempts_path := preemptsPath tmpDir "baseline_nearby_non_matching"
    let evs := [Ev.validateEv non_matching_preempts,
      Ev.writeEv "save_nearby_non_matching_sched_events" non_matching_preempts_path,
      Ev.replayEv "baseline_nearby_non_matching" non_matching_preempts (some sched_events_path),
      Ev.writeEv "save_nearby_non_matching_sched_events" sched_events_path]
    if env.replayMatches non_matching_preempts then
      (evs ++ [Ev.printEv "New preemption record still matches criteria! Attempting further knockouts.."],
        .ok (some non_matching_preempts))
    else
      (evs, .ok none)

/-- Translation of `save_final_baseline_sched_events` (phases.rs lines
784-824): write the baseline record to final_pass.preempts, replay it while
recording schedule events to `sched_events_path`, and print a good-news line
when the replay does not match. Note the source returns `()` on both
branches: a matching replay is NOT an error there. -/
def save_final_baseline_sched_events (env : Env) (tmpDir : String)
    (final_preempts : PreemptRec) (sched_events_path : String) :
    List Ev × Except String Unit :=
  let final_preempts_path := tmpDir ++ "/final_pass.preempts"
  let evs := [Ev.writeEv "save_final_baseline_sched_events" final_preempts_path,
    Ev.replayEv "verify_baseline_endpoint" final_preempts (some sched_events_path),
    Ev.writeEv "save_final_baseline_sched_events" sched_events_path]
  if env.replayMatches final_preempts then
    (evs, .ok ())
  else
    (evs ++ [Ev.printEv "Good: baseline run does not match criteria (e.g. pass not fail)."], .ok ())

/-- Translation of `save_final_target_sched_events` (phases.rs lines
828-863): replay the final target record recording schedule events, and bail
when the replay no longer matches the target criteria. -/
def save_final_target_sched_events (env : Env) (final_preempts : PreemptRec)
    (sched_events_path : String) : List Ev × Except String Unit :=
  let evs := [Ev.replayEv "verify_target_endpoint" final_preempts (some sched_events_path),
    Ev.writeEv "save_final_target_sched_events" sched_events_path]
  if env.replayMatches final_preempts then
    (evs, .ok ())
  else
    (evs, .error "Final preemption record still does not match target criteria")

/-- The knockout `loop` of phase 4 (phases.rs lines 572-581), with explicit
fuel standing in for the unbounded Rust loop: while
`save_nearby_non_matching_sched_events` reports the truncated record still
matching, continue from the truncated record; when it reports `none`, return
the current loop variable `pr` together with the schedule path. -/
def knockout_loop (env : Env) (tmpDir sched_path : String) :
    Nat → PreemptRec → List Ev × Except String (PreemptRec × String)
  | 0, _ => ([], .error "fuel exhausted")
  | fuel + 1, pr =>
    match save_nearby_non_matching_sched_events env tmpDir pr sched_path with
    | (evs, .error e) => (evs, .error e)
    | (evs, .ok (some still_matching_pr)) =>
      let rest := knockout_loop env tmpDir sched_path fuel still_matching_pr
      (evs ++ rest.1, rest.2)
    | (evs, .ok none) => (evs, .ok (pr, sched_path))

/-- Translation of `phase4_choose_baseline_sched_events` (phases.rs lines
543-587). Branches: `run2_seed` present records a fresh baseline run;
`run2_preemptions` present loads that file and records its schedule (onto
the provided path!); otherwise with `minimize` the knockout loop runs; and
otherwise the stripped (empty) record is used. The function returns the
chosen baseline record and the schedule-events path. -/
def phase4_choose_baseline_sched_events (env : Env) (opts : AnalyzeArgs)
    (tmpDir : String) (fuel : Nat) (matching_pr : PreemptRec) :
    List Ev × Except String (PreemptRec × String) :=
  let sched_path := preemptsPath tmpDir "run2_baseline"
  if opts.run2_seed.isSome then
    ([Ev.recordEv "run2_baseline", Ev.writeEv "launch_and_record_preempts" sched_path],
      .ok (matching_pr, sched_path))
  else
    match opts.run2_preemptions with
    | some path =>
      let pr := env.load path
      let saved := save_final_baseline_sched_events env tmpDir pr path
      (saved.1, .ok (matching_pr, sched_path))
    | none =>
      if opts.minimize then
        knockout_loop env tmpDir sched_path fuel matching_pr
      else
        let empty_pr : PreemptRec := []
        let saved := save_final_baseline_sched_events env tmpDir empty_pr sched_path
        (saved.1, .ok (matching_pr, sched_path))

/-- The bisection-preparation slice of `AnalyzeOpts::main` (phases.rs lines
742-764): write the normalized record to final.preempts, record the target
schedule to first_matching.events via `save_final_target_sched_events`, run
phase 4, then call `save_final_baseline_sched_events` on the returned record
with the TARGET schedule-events path (the aliasing present in the source).
Returns the final record, the target path and the baseline path handed to
`read_trace`. -/
def main_bisection_prep (env : Env) (opts : AnalyzeArgs) (tmpDir : String)
    (fuel : Nat) (normalized_preempts : PreemptRec) :
    List Ev × Except String (PreemptRec × String × String) :=
  let normalized_preempts_path := tmpDir ++ "/final.preempts"
  let target_sched_events_path := tmpDir ++ "/first_matching.events"
  let evs0 := [Ev.writeEv "main" normalized_preempts_path]
  match save_final_target_sched_events env normalized_preempts target_sched_events_path with
  | (evs1, .error e) => (evs0 ++ evs1, .error e)
  | (evs1, .ok ()) =>
    match phase4_choose_baseline_sched_events env opts tmpDir fuel normalized_preempts with
    | (evs2, .error e) => (evs0 ++ evs1 ++ evs2, .error e)
    | (evs2, .ok (final_pr, non_matching_sched_events_path)) =>
      let saved := save_final_baseline_sched_events env tmpDir final_pr target_sched_events_path
      (evs0 ++ evs1 ++ evs2 ++ saved.1,
        .ok (final_pr, target_sched_events_path, non_matching_sched_events_path))

/-! ## Searcher (`do_search` and `launch_search`, phases.rs lines 120-146 and
934-973) -/

/-- Zero-padding to width 3, as in the Rust format string of
`launch_search`. -/
def pad3 (n : Nat) : String :=
  let s := toString n
  if s.length = 1 then "00" ++ s else if s.length = 2 then "0" ++ s else s

/-- Run name of one search round (phases.rs line 130). -/
def search_runname (round : Nat) : String :=
  "search_round_" ++ pad3 round

/-- Translation of `AnalyzeOpts::launch_search` (phases.rs lines 120-146):
launch one chaos run with the given sched seed, recording preemptions to the
round-specific path; return that path when the run matches the criteria. -/
def launch_search (env : Env) (tmpDir : String) (round sched_seed : Nat) :
    List Ev × Option String :=
  let preempts_path := preemptsPath tmpDir (search_runname round)
  ([Ev.launchEv round sched_seed, Ev.writeEv "launch_search" preempts_path],
    if env.searchMatches sched_seed then some preempts_path else none)

/-- Translation of `AnalyzeOpts::search_seed` selection in `do_search`
(phases.rs lines 935-939): the user-supplied analyze seed when present,
otherwise a value drawn from system entropy. -/
def search_seed_of (analyze_seed : Option Nat) (entropy : Nat) : Nat :=
  analyze_seed.getD entropy

/-- The unbounded search `loop` of `do_search` (phases.rs lines 948-972) with
explicit fuel: each round draws the next seed from the pseudorandom stream,
launches a chaos run, and on the first match copies the recorded preemption
file to the caller-provided destination and stops. Returns the trace and the
matching round when found within fuel. -/
def do_search_loop (env : Env) (tmpDir dest : String) (seeds : Nat → Nat) :
    Nat → Nat → List Ev × Option Nat
  | 0, _ => ([], none)
  | fuel + 1, round =>
    match launch_search env tmpDir round (seeds round) with
    | (evs, some preempts) => (evs ++ [Ev.copyEv preempts dest], some round)
    | (evs, none) =>
      let rest := do_search_loop env tmpDir dest seeds fuel (round + 1)
      (evs ++ rest.1, rest.2)

/-- Translation of `AnalyzeOpts::do_search` (phases.rs lines 934-973): seed
the pseudorandom number stream from the analyze seed (or entropy) and run the
search loop from round 0. `env.rng seed i` abstracts the i-th draw from
`Pcg64Mcg::seed_from_u64 seed`. -/
def do_search (env : Env) (analyze_seed : Option Nat) (tmpDir preempts_path : String)
    (fuel : Nat) : List Ev × Option Nat :=
  do_search_loop env tmpDir preempts_path
    (env.rng (search_seed_of analyze_seed env.entropy)) fuel 0

/-! ## Phase 1 (`phase1_establish_target_run`, phases.rs lines 330-397) -/

/-- Translation of `phase1_establish_target_run` (phases.rs lines 330-397),
after workspace creation. When `run1_preemptions` is given the file is copied
into the workspace and (selfcheck off) `is_a_match` is set to `true` without
any run; when absent, a recording run is launched and its oracle outcome
taken. A non-match then either searches (with `--search`) or bails. Returns
the log path, the preemption path and the local `is_a_match` value. The
`todo!()` for selfcheck with supplied preemptions is modelled as an error. -/
def phase1_establish_target_run (env : Env) (opts : AnalyzeArgs) (tmpDir : String)
    (fuel : Nat) : List Ev × Except String (String × String × Bool) :=
  let runname := "phase1_target"
  let preempts_path := preemptsPath tmpDir runname
  let run1_log_path := logPath tmpDir runname
  match opts.run1_preemptions with
  | some p =>
    if opts.selfcheck then
      ([Ev.copyEv p preempts_path], .error "not implemented")
    else
      ([Ev.copyEv p preempts_path], .ok (run1_log_path, preempts_path, true))
  | none =>
    let is_a_match := env.run1InitialMatches
    let evs := [Ev.recordEv runname, Ev.writeEv "launch_and_record_preempts" preempts_path]
    if is_a_match = false then
      if opts.search then
        let searched := do_search env opts.analyze_seed tmpDir preempts_path fuel
        match searched.2 with
        | some _ => (evs ++ searched.1, .ok (run1_log_path, preempts_path, is_a_match))
        | none => (evs ++ searched.1, .error "fuel exhausted")
      else
        (evs, .error "FAILED. The run did not match the target criteria. Try --search.")
    else
      (evs, .ok (run1_log_path, preempts_path, is_a_match))

/-! ## Phase 6 (`phase6_record_outputs` and `launch_for_stacktraces`,
phases.rs lines 188-208 and 639-714) -/

/-- Output of the bisector (schedule_search.rs): the failing and passing
schedules and the index of the critical event. -/
structure CriticalSchedule where
  failing_schedule : List Nat
  passing_schedule : List Nat
  critical_event_index : Nat
deriving DecidableEq

/-- Final analysis report (analyze/types.rs). -/
structure Report where
  header : String
  stack1 : String
  stack2 : String
deriving DecidableEq

/-- Rust unsigned subtraction: panics (here `none`) on underflow, as in debug
builds of `critical_event_index - 1`. -/
def rust_checked_sub (a b : Nat) : Option Nat :=
  if b ≤ a then some (a - b) else none

/-- Translation of `AnalyzeOpts::launch_for_stacktraces` (phases.rs lines
188-208): derive the two stack paths, set `stacktrace_event` to the pairs at
`critical_event_index - 1` and `critical_event_index`, replay the schedule,
and return the oracle outcome, the two stack paths and the
`stacktrace_event` list that was set. The unsigned subtraction underflows
when the index is 0. -/
def launch_for_stacktraces (env : Env) (tmpDir runname : String)
    (schedule : List Nat) (critical_event_index : Nat) :
    Except String (Bool × String × String × List (Nat × String)) :=
  let stack1_path := tmpDir ++ "/" ++ runname ++ ".stack1"
  let stack2_path := tmpDir ++ "/" ++ runname ++ ".stack2"
  match rust_checked_sub critical_event_index 1 with
  | none => .error "panicked at attempt to subtract with overflow"
  | some prev =>
    let stacktrace_event := [(prev, stack1_path), (critical_event_index, stack2_path)]
    .ok (env.schedMatches schedule, stack1_path, stack2_path, stacktrace_event)

/-- The fixed diagnostic header of the phase-6 report (phases.rs lines
667-679), parameterized by the critical event index and its predecessor. -/
def phase6_header (critical_event_index prev : Nat) : String :=
  "These two operations, on different threads, are RACING with eachother.\n"
    ++ "The current order of events " ++ toString prev ++ " and "
    ++ toString critical_event_index ++ " is causing a FAILURE.\n"
    ++ "You must add synchronization to prevent these operations from racing, or give them a different order.\n"

/-- Translation of `phase6_record_outputs` (phases.rs lines 639-714): write
the failing and passing schedules as .events files, build the header (which
computes `critical_event_index - 1` on an unsigned integer), re-run the
failing schedule for stack traces, read the two stack files, and return the
report when the rerun matches; bail with an internal error otherwise. -/
def phase6_record_outputs (env : Env) (tmpDir : String) (crit : CriticalSchedule) :
    List Ev × Except String Report :=
  let runname := "final_target_for_stacktraces"
  let final_failing_path := schedEventsFile tmpDir runname
  let final_passing_path := schedEventsFile tmpDir "final_baseline"
  let evs := [Ev.writeEv "phase6_record_outputs" final_failing_path,
    Ev.writeEv "phase6_record_outputs" final_passing_path]
  match rust_checked_sub crit.critical_event_index 1 with
  | none => (evs, .error "panicked at attempt to subtract with overflow")
  | some prev =>
    let header := phase6_header crit.critical_event_index prev
    match launch_for_stacktraces env tmpDir runname crit.failing_schedule
        crit.critical_event_index with
    | .error e => (evs, .error e)
    | .ok (res, stack1_path, stack2_path, _ste) =>
      let stack1 := env.fileContents stack1_path
      let stack2 := env.fileContents stack2_path
      if res then
        (evs, .ok ⟨header, stack1, stack2⟩)
      else
        (evs, .error "Internal error! Final run did NOT match the criteria as expected!")

/-! ## Concrete oracle environments used as test inputs -/

/-- Discriminator for validate events. -/
def Ev.isValidate : Ev → Bool
  | .validateEv _ => true
  | _ => false

/-- Concrete environment: a replay matches iff the record still has at least
two preemptions; validation always passes. -/
def envLen2 : Env where
  replayMatches := fun l => decide (2 ≤ l.length)
  schedMatches := fun _ => false
  validateOk := fun _ => true
  load := fun _ => []
  fileContents := fun _ => ""
  run1InitialMatches := true
  searchMatches := fun _ => false
  rng := fun _ _ => 0
  entropy := 0

/-- Concrete environment: a replay matches iff the record is nonempty. -/
def envLen1 : Env :=
  { envLen2 with replayMatches := fun l => decide (1 ≤ l.length) }

/-- Concrete environment in which every replay matches the criteria (an I2
violation for any record carried as baseline). -/
def envAllMatch : Env :=
  { envLen2 with replayMatches := fun _ => true }

/-- Concrete environment whose validation always fails and whose preemption
files all load as the record `[5]`. -/
def envNoValidate : Env :=
  { envLen2 with validateOk := fun _ => false, load := fun _ => [5] }

/-- Analyze arguments selecting the knockout branch of phase 4: no run2
inputs and minimization enabled. -/
def optsKnockout : AnalyzeArgs where
  run1_seed := none
  run1_preemptions := none
  run2_seed := none
  run2_preemptions := none
  minimize := true
  selfcheck := false
  search := false
  analyze_seed := none

/-- Analyze arguments selecting the run2_preemptions branch of phase 4. -/
def optsRun2Pre : AnalyzeArgs :=
  { optsKnockout with run2_preemptions := some "p" }

/-- Analyze arguments supplying a run1 preemption file (selfcheck off). -/
def optsRun1Pre : AnalyzeArgs :=
  { optsKnockout with run1_preemptions := some "user.preempts" }

/-- Concrete environment for the searcher: the pseudorandom stream seeded by
s yields s, s + 1, s + 2, ..., and a chaos run matches iff its sched seed is
7. -/
def envSearch : Env :=
  { envLen2 with
    searchMatches := fun s => s == 7
    rng := fun seed i => seed + i
    entropy := 99 }

/-- Concrete environment for the reporter: every schedule replay matches and
each stack file reads back as its own path. -/
def envStack : Env :=
  { envLen2 with schedMatches := fun _ => true, fileContents := fun s => s }

end HermitAnalyze

namespace HermitAnalyze

/-! ## Claim theorems for the oracle and the base configuration -/

/-- C4: `output_matches` is the conjunction over the present constraints —
for every captured output it returns true iff every present constraint among
the stdout regex, the stderr regex and the exit-code constraint holds on that
output (regexes evaluated on the stream bytes decoded as lossy UTF-8), and
when no constraint is present it returns true for every output. -/
theorem output_matches_is_conjunction (u : List Nat → String) (c : Criteria) (out : Output) :
    (output_matches u c out =
      ((match c.target_stdout with
        | some pat => pat (u out.stdout)
        | none => true)
       && (match c.target_stderr with
        | some pat => pat (u out.stderr)
        | none => true)
       && c.target_exit_code.is_match out.status))
    ∧ (c.target_stdout = none → c.target_stderr = none →
        c.target_exit_code = ExitStatusConstraint.Any → output_matches u c out = true) := by
  constructor
  · unfold output_matches
    rcases c with ⟨so, se, ec⟩
    rcases so with _ | pat <;> rcases se with _ | pat2 <;>
        simp <;> cases ec.is_match out.status <;>
        simp_all <;> cases pat (u out.stdout) <;>
        simp_all
  · intro h1 h2 h3
    simp [output_matches, h1, h2, h3, ExitStatusConstraint.is_match]

/-- Witness for C4: at a concrete unconstrained criterion and a concrete
output, the oracle returns true. -/
theorem output_matches_is_conjunction_witness :
    output_matches (fun _ => "") ⟨none, none, ExitStatusConstraint.Any⟩ ⟨[1], [2], 3⟩ = true :=
  (output_matches_is_conjunction (fun _ => "") ⟨none, none, ExitStatusConstraint.Any⟩
    ⟨[1], [2], 3⟩).2 rfl rfl rfl

/-- C5: if run_args include `--no-sequentialize-threads` then
`get_base_runopts` fails with the determinism-required error, and whenever it
succeeds the resulting configuration has `sequentialize_threads = true`. -/
theorem get_base_runopts_requires_sequentialize (run_args : List String) (tmpDir : String) :
    (run_args.contains "--no-sequentialize-threads" = true →
      get_base_runopts run_args tmpDir =
        .error "Error, cannot search through executions with --no-sequentialize-threads.  Determinism required.")
    ∧ (∀ ro : RunOpts, get_base_runopts run_args tmpDir = .ok ro →
        ro.det_config.sequentialize_threads = true) := by
  constructor
  · intro h
    have hm : "--no-sequentialize-threads" ∈ run_args := by simpa using h
    simp [get_base_runopts, parse_run_args, hm]
  · intro ro h
    unfold get_base_runopts parse_run_args at h
    by_cases hm : "--no-sequentialize-threads" ∈ run_args
    · simp [hm] at h
    · simp [hm, validate_args] at h
      rw [← h]

/-- Witness for C5: with the flag present the construction fails; with an
empty argument list it succeeds and the result has
`sequentialize_threads = true`. -/
theorem get_base_runopts_requires_sequentialize_witness :
    (get_base_runopts ["--no-sequentialize-threads"] "tmp" =
      .error "Error, cannot search through executions with --no-sequentialize-threads.  Determinism required.")
    ∧ (validate_args (RunOpts.mk false (DetConfig.mk true false) ["tmp"])).det_config.sequentialize_threads = true :=
  ⟨(get_base_runopts_requires_sequentialize ["--no-sequentialize-threads"] "tmp").1 (by decide),
   (get_base_runopts_requires_sequentialize [] "tmp").2 _ rfl⟩

end HermitAnalyze

namespace HermitAnalyze

/-! ## Phase-4 theorems: knockout loop, baseline verification, validation -/

/-- Helper: from a successful knockout loop, the returned record is reached
from the input by repeatedly dropping the latest preemption, it still matches
whenever the input did, its own latest-preempt-removal does not match, the
returned path is the schedule path, and the replay of that first non-matching
truncation (recording to the schedule path) appears in the trace. -/
theorem knockout_loop_ok (env : Env) (tmpDir sp : String) :
    ∀ (fuel : Nat) (pr r : PreemptRec) (evs : List Ev) (out : String),
      knockout_loop env tmpDir sp fuel pr = (evs, Except.ok (r, out)) →
      (env.replayMatches pr = true → env.replayMatches r = true)
        ∧ env.replayMatches r.dropLast = false
        ∧ out = sp
        ∧ (∃ k, r = List.dropLast^[k] pr)
        ∧ Ev.replayEv "baseline_nearby_non_matching" r.dropLast (some sp) ∈ evs := by
  intro fuel
  induction fuel with
  | zero =>
    intro pr r evs out h
    simp [knockout_loop] at h
  | succ n ih =>
    intro pr r evs out h
    rw [knockout_loop] at h
    by_cases hv : env.validateOk pr.dropLast = false
    · simp [save_nearby_non_matching_sched_events, hv] at h
    · rw [Bool.not_eq_false] at hv
      by_cases hm : env.replayMatches pr.dropLast = true
      · simp only [save_nearby_non_matching_sched_events, hv, Bool.true_eq_false,
          if_false, hm, if_true] at h
        cases hrest : knockout_loop env tmpDir sp n pr.dropLast with
        | mk evs2 res2 =>
          rw [hrest] at h
          rw [Prod.mk.injEq] at h
          obtain ⟨hevs, hres⟩ := h
          have hres2 : res2 = Except.ok (r, out) := hres
          obtain ⟨ih1, ih2, ih3, ⟨k, hk⟩, ih5⟩ :=
            ih pr.dropLast r evs2 out (by rw [hrest, hres2])
          refine ⟨fun _ => ih1 hm, ih2, ih3, ⟨k + 1, ?_⟩, ?_⟩
          · rw [hk, Function.iterate_succ_apply]
          · rw [← hevs]
            have : ((evs2, res2) : List Ev × Except String (PreemptRec × String)).1 = evs2 := rfl
            rw [this]
            exact List.mem_append_right _ ih5
      · rw [Bool.not_eq_true] at hm
        simp only [save_nearby_non_matching_sched_events, hv, Bool.true_eq_false,
          if_false, hm, if_true] at h
        rw [Prod.mk.injEq] at h
        obtain ⟨hevs, hres⟩ := h
        obtain ⟨hr, hout⟩ : r = pr ∧ out = sp := by
          have := hres
          simp at this
          exact ⟨this.1.symm, this.2.symm⟩
        subst hr hout
        refine ⟨fun hp => hp, hm, rfl, ⟨0, rfl⟩, ?_⟩
        rw [← hevs]
        simp

end HermitAnalyze

namespace HermitAnalyze

/-- C1 counterexample: with an oracle under which a record matches iff it
has at least two preemptions, starting the knockout branch from the matching
record [1, 2] makes phase 4 return the record [1, 2] itself — a record whose
replay still MATCHES the criterion — not the first truncated record [1] that
fails to match. -/
theorem phase4_knockout_cex :
    (phase4_choose_baseline_sched_events envLen2 optsKnockout "tmp" 5 [1, 2]).2 =
      Except.ok ([1, 2], preemptsPath "tmp" "run2_baseline")
    ∧ envLen2.replayMatches [1, 2] = true
    ∧ envLen2.replayMatches (List.dropLast [1, 2]) = false := by
  refine ⟨rfl, rfl, rfl⟩

/-- C1 (amended): in the knockout branch of phase 4 (no run2 inputs,
minimization on), the loop repeatedly removes the latest preemption as long
as the truncated record still matches, and stops at the first truncated
record that fails to match; but the record returned by
`phase4_choose_baseline_sched_events` is the LAST STILL-MATCHING record: the
first non-matching truncated record is its latest-preempt-removal, which is
replayed (recording schedule events to the returned schedule path) but not
returned. -/
theorem phase4_knockout_returns_last_matching (env : Env) (opts : AnalyzeArgs)
    (tmpDir : String) (fuel : Nat) (pr0 r : PreemptRec) (evs : List Ev) (out : String)
    (hseed : opts.run2_seed = none) (hpre : opts.run2_preemptions = none)
    (hmin : opts.minimize = true)
    (hm0 : env.replayMatches pr0 = true)
    (h : phase4_choose_baseline_sched_events env opts tmpDir fuel pr0 = (evs, .ok (r, out))) :
    env.replayMatches r = true
      ∧ env.replayMatches r.dropLast = false
      ∧ (∃ k, r = List.dropLast^[k] pr0)
      ∧ out = preemptsPath tmpDir "run2_baseline"
      ∧ Ev.replayEv "baseline_nearby_non_matching" r.dropLast (some out) ∈ evs := by
  rw [phase4_choose_baseline_sched_events, hseed, hpre, hmin] at h
  simp only [Option.isSome_none, Bool.false_eq_true, if_false, if_true] at h
  obtain ⟨h1, h2, h3, h4, h5⟩ := knockout_loop_ok env tmpDir
    (preemptsPath tmpDir "run2_baseline") fuel pr0 r evs out h
  subst h3
  exact ⟨h1 hm0, h2, h4, rfl, h5⟩

/-- Witness for the amended C1: with an oracle under which a record matches
iff it is nonempty, the knockout branch starting from [1, 2] runs one
successful knockout and returns [1], whose own truncation [] no longer
matches. -/
theorem phase4_knockout_returns_last_matching_witness :
    envLen1.replayMatches [1] = true
      ∧ envLen1.replayMatches (List.dropLast [1]) = false
      ∧ (∃ k, ([1] : PreemptRec) = List.dropLast^[k] [1, 2])
      ∧ preemptsPath "tmp" "run2_baseline" = preemptsPath "tmp" "run2_baseline"
      ∧ Ev.replayEv "baseline_nearby_non_matching" (List.dropLast [1])
          (some (preemptsPath "tmp" "run2_baseline"))
        ∈ (phase4_choose_baseline_sched_events envLen1 optsKnockout "tmp" 5 [1, 2]).1 :=
  phase4_knockout_returns_last_matching envLen1 optsKnockout "tmp" 5 [1, 2] [1]
    (phase4_choose_baseline_sched_events envLen1 optsKnockout "tmp" 5 [1, 2]).1
    (preemptsPath "tmp" "run2_baseline") rfl rfl rfl rfl rfl

/-- C3: violation of the baseline invariant I2 is NOT fatal in the source:
`save_final_baseline_sched_events` returns successfully for every oracle and
record — in particular when the replay of the record carried as baseline
matches the criterion — and in the matching case it proceeds silently
(the good-news line is only printed in the non-matching case). -/
theorem save_final_baseline_never_aborts :
    (∀ (env : Env) (tmpDir : String) (r : PreemptRec) (sp : String),
        (save_final_baseline_sched_events env tmpDir r sp).2 = Except.ok ())
    ∧ envAllMatch.replayMatches [1] = true
    ∧ (save_final_baseline_sched_events envAllMatch "tmp" [1] "tmp/sched").2 = Except.ok ()
    ∧ Ev.printEv "Good: baseline run does not match criteria (e.g. pass not fail)."
        ∉ (save_final_baseline_sched_events envAllMatch "tmp" [1] "tmp/sched").1 := by
  refine ⟨?_, rfl, rfl, by decide⟩
  intro env tmpDir r sp
  rw [save_final_baseline_sched_events]
  cases env.replayMatches r <;> simp

end HermitAnalyze

namespace HermitAnalyze

/-- C7 counterexample: in the run2_preemptions branch of phase 4, the loaded
baseline record (here [5], which fails `validate()`) is replayed with no
validate event anywhere in the trace and the phase completes without error
— so the record is not validate()-checked before use in every branch. -/
theorem phase4_run2_preemptions_no_validate_cex :
    (∀ e ∈ (phase4_choose_baseline_sched_events envNoValidate optsRun2Pre "tmp" 5 [1, 2]).1,
        e.isValidate = false)
    ∧ Ev.replayEv "verify_baseline_endpoint" [5] (some "p")
        ∈ (phase4_choose_baseline_sched_events envNoValidate optsRun2Pre "tmp" 5 [1, 2]).1
    ∧ (phase4_choose_baseline_sched_events envNoValidate optsRun2Pre "tmp" 5 [1, 2]).2 =
        Except.ok ([1, 2], preemptsPath "tmp" "run2_baseline")
    ∧ envNoValidate.validateOk [5] = false := by
  refine ⟨by decide, by decide, rfl, rfl⟩

/-- C7 (amended): only the knockout branch validates — in
`save_nearby_non_matching_sched_events` the truncated record is
`validate()`-checked before any replay (a failing validate aborts with an
error and produces no replay event), and when validation passes the validate
event precedes the write and the replay of the truncated record; the
run2_preemptions and stripped-record branches of phase 4 replay their
baseline record without any validate check. -/
theorem save_nearby_validates_before_use (env : Env) (tmpDir : String)
    (pr : PreemptRec) (sp : String) :
    (env.validateOk pr.dropLast = false →
        save_nearby_non_matching_sched_events env tmpDir pr sp =
          ([Ev.validateEv pr.dropLast],
            .error "Hermit analyzer produced corrupt nearby non-matching preemption record, cannot proceed."))
    ∧ (env.validateOk pr.dropLast = true →
        (save_nearby_non_matching_sched_events env tmpDir pr sp).1.take 3 =
          [Ev.validateEv pr.dropLast,
            Ev.writeEv "save_nearby_non_matching_sched_events"
              (preemptsPath tmpDir "baseline_nearby_non_matching"),
            Ev.replayEv "baseline_nearby_non_matching" pr.dropLast (some sp)]) := by
  constructor
  · intro hv
    rw [save_nearby_non_matching_sched_events, hv]
    simp
  · intro hv
    rw [save_nearby_non_matching_sched_events, hv]
    simp only [Bool.true_eq_false, if_false]
    cases env.replayMatches pr.dropLast <;> simp

/-- Witness for the amended C7: with failing validation the knockout worker
aborts before any replay; with passing validation the trace starts with the
validate event followed by the write and the replay. -/
theorem save_nearby_validates_before_use_witness :
    (save_nearby_non_matching_sched_events envNoValidate "tmp" [1, 2] "tmp/sched" =
        ([Ev.validateEv (List.dropLast [1, 2])],
          .error "Hermit analyzer produced corrupt nearby non-matching preemption record, cannot proceed."))
    ∧ (save_nearby_non_matching_sched_events envLen2 "tmp" [1, 2] "tmp/sched").1.take 3 =
        [Ev.validateEv (List.dropLast [1, 2]),
          Ev.writeEv "save_nearby_non_matching_sched_events"
            (preemptsPath "tmp" "baseline_nearby_non_matching"),
          Ev.replayEv "baseline_nearby_non_matching" (List.dropLast [1, 2]) (some "tmp/sched")] :=
  ⟨(save_nearby_validates_before_use envNoValidate "tmp" [1, 2] "tmp/sched").1 rfl,
    (save_nearby_validates_before_use envLen2 "tmp" [1, 2] "tmp/sched").2 rfl⟩

/-- C2: two distinct operations of the driver write the same artifact path:
in the main bisection preparation, `save_final_target_sched_events` records
the target schedule to first_matching.events and then the
`save_final_baseline_sched_events` call of `main` records the baseline
schedule events to that SAME path, so the target schedule-events file does
not have exactly one writer. -/
theorem main_two_writers_of_target_sched_events :
    Ev.writeEv "save_final_target_sched_events" "tmp/first_matching.events"
        ∈ (main_bisection_prep envLen2 optsKnockout "tmp" 5 [1, 2]).1
    ∧ Ev.writeEv "save_final_baseline_sched_events" "tmp/first_matching.events"
        ∈ (main_bisection_prep envLen2 optsKnockout "tmp" 5 [1, 2]).1
    ∧ "save_final_target_sched_events" ≠ "save_final_baseline_sched_events"
    ∧ (main_bisection_prep envLen2 optsKnockout "tmp" 5 [1, 2]).2 =
        Except.ok ([1, 2], "tmp/first_matching.events", preemptsPath "tmp" "run2_baseline") := by
  refine ⟨by decide, by decide, by decide, rfl⟩

end HermitAnalyze

namespace HermitAnalyze

/-- Helper: when round n is the first round (at or after `start`) whose chaos
seed matches, the search loop launches exactly the rounds start..n in order,
copies the round-n preemption file to the destination, and stops with n. -/
theorem do_search_loop_first_match (env : Env) (tmpDir dest : String) (seeds : Nat → Nat) :
    ∀ (fuel start n : Nat), start ≤ n →
      env.searchMatches (seeds n) = true →
      (∀ m, start ≤ m → m < n → env.searchMatches (seeds m) = false) →
      n - start < fuel →
      do_search_loop env tmpDir dest seeds fuel start =
        (((List.range' start (n + 1 - start)).bind fun i =>
            [Ev.launchEv i (seeds i),
              Ev.writeEv "launch_search" (preemptsPath tmpDir (search_runname i))])
          ++ [Ev.copyEv (preemptsPath tmpDir (search_runname n)) dest],
          some n) := by
  intro fuel
  induction fuel with
  | zero =>
    intro start n _ _ _ hfuel
    omega
  | succ k ih =>
    intro start n hle hn hlt hfuel
    rw [do_search_loop]
    by_cases hms : env.searchMatches (seeds start) = true
    · have hsn : start = n := by
        by_contra hne
        have : start < n := lt_of_le_of_ne hle hne
        have := hlt start le_rfl this
        rw [hms] at this
        exact Bool.true_eq_false.mp this
      subst hsn
      rw [launch_search, hms]
      have hr : start + 1 - start = 1 := by omega
      rw [hr]
      simp [List.range']
    · rw [Bool.not_eq_true] at hms
      have hlt0 : start < n := by
        rcases lt_or_eq_of_le hle with h | h
        · exact h
        · rw [h] at hms
          rw [hn] at hms
          exact absurd hms (by simp)
      rw [launch_search, hms]
      simp only [Bool.false_eq_true, if_false]
      rw [ih (start + 1) n hlt0 hn (fun m hm hm2 => hlt m (by omega) hm2) (by omega)]
      have hr : n + 1 - start = (n + 1 - (start + 1)) + 1 := by omega
      rw [hr, List.range']
      simp [List.append_assoc]

/-- C8: when the sequence of search rounds contains a matching round,
`do_search` terminates exactly at the first round whose chaos run matches,
copies that round's recorded preemption file to the caller-provided
destination and performs no further rounds; the seeds are drawn from the
pseudorandom stream seeded by the analyze seed when supplied and by system
entropy otherwise. -/
theorem do_search_finds_first_matching_round (env : Env) (analyze_seed : Option Nat)
    (tmpDir dest : String) (fuel n : Nat)
    (hn : env.searchMatches (env.rng (search_seed_of analyze_seed env.entropy) n) = true)
    (hlt : ∀ m < n,
      env.searchMatches (env.rng (search_seed_of analyze_seed env.entropy) m) = false)
    (hfuel : n < fuel) :
    do_search env analyze_seed tmpDir dest fuel =
      (((List.range' 0 (n + 1)).bind fun i =>
          [Ev.launchEv i (env.rng (search_seed_of analyze_seed env.entropy) i),
            Ev.writeEv "launch_search" (preemptsPath tmpDir (search_runname i))])
        ++ [Ev.copyEv (preemptsPath tmpDir (search_runname n)) dest],
        some n)
      ∧ search_seed_of analyze_seed env.entropy = analyze_seed.getD env.entropy := by
  constructor
  · rw [do_search]
    rw [do_search_loop_first_match env tmpDir dest
      (env.rng (search_seed_of analyze_seed env.entropy)) fuel 0 n (Nat.zero_le n) hn
      (fun m _ hm2 => hlt m hm2) (by omega)]
    rw [Nat.sub_zero]
  · rfl

/-- Witness for C8: with the stream 5, 6, 7, ... seeded by the supplied
analyze seed 5 and the criterion matching exactly seed 7, the search stops at
round 2 and copies that round's preemption file. -/
theorem do_search_finds_first_matching_round_witness :
    do_search envSearch (some 5) "tmp" "dest" 4 =
      (((List.range' 0 3).bind fun i =>
          [Ev.launchEv i (envSearch.rng (search_seed_of (some 5) envSearch.entropy) i),
            Ev.writeEv "launch_search" (preemptsPath "tmp" (search_runname i))])
        ++ [Ev.copyEv (preemptsPath "tmp" (search_runname 2)) "dest"],
        some 2)
      ∧ search_seed_of (some 5) envSearch.entropy = (some 5).getD envSearch.entropy :=
  do_search_finds_first_matching_round envSearch (some 5) "tmp" "dest" 4 2
    (by decide) (by decide) (by decide)

/-- C9: when run1_preemptions is supplied and selfcheck is off, phase 1 only
copies the supplied file into the workspace and sets `is_a_match` to true
without launching any run — for every oracle environment, including ones
where replaying the supplied record would not match, it emits exactly the
copy event, does not search and does not fail. -/
theorem phase1_trusts_supplied_preemptions (env : Env) (opts : AnalyzeArgs)
    (tmpDir : String) (fuel : Nat) (p : String)
    (hp : opts.run1_preemptions = some p) (hsc : opts.selfcheck = false) :
    phase1_establish_target_run env opts tmpDir fuel =
      ([Ev.copyEv p (preemptsPath tmpDir "phase1_target")],
        .ok (logPath tmpDir "phase1_target", preemptsPath tmpDir "phase1_target", true)) := by
  rw [phase1_establish_target_run, hp, hsc]
  simp

/-- Witness for C9: a concrete environment whose replays never match still
yields the copy-only trace with `is_a_match = true`. -/
theorem phase1_trusts_supplied_preemptions_witness :
    phase1_establish_target_run envNoValidate optsRun1Pre "tmp" 3 =
      ([Ev.copyEv "user.preempts" (preemptsPath "tmp" "phase1_target")],
        .ok (logPath "tmp" "phase1_target", preemptsPath "tmp" "phase1_target", true)) :=
  phase1_trusts_supplied_preemptions envNoValidate optsRun1Pre "tmp" 3 "user.preempts" rfl rfl

end HermitAnalyze

namespace HermitAnalyze

/-- C6: with a positive critical event index, phase 6 re-runs the failing
schedule with `stacktrace_event` set to exactly the pairs at index minus one
(stack1) and the index itself (stack2); if the rerun does not match the
criteria it aborts with the internal error, and when it matches it returns
the report made of the fixed header and the contents of the two stack
files. -/
theorem phase6_report_and_internal_error (env : Env) (tmpDir : String)
    (crit : CriticalSchedule) (hci : 1 ≤ crit.critical_event_index) :
    (launch_for_stacktraces env tmpDir "final_target_for_stacktraces"
        crit.failing_schedule crit.critical_event_index =
      Except.ok (env.schedMatches crit.failing_schedule,
        tmpDir ++ "/" ++ "final_target_for_stacktraces" ++ ".stack1",
        tmpDir ++ "/" ++ "final_target_for_stacktraces" ++ ".stack2",
        [(crit.critical_event_index - 1, tmpDir ++ "/" ++ "final_target_for_stacktraces" ++ ".stack1"),
          (crit.critical_event_index, tmpDir ++ "/" ++ "final_target_for_stacktraces" ++ ".stack2")]))
    ∧ (env.schedMatches crit.failing_schedule = false →
        (phase6_record_outputs env tmpDir crit).2 =
          .error "Internal error! Final run did NOT match the criteria as expected!")
    ∧ (env.schedMatches crit.failing_schedule = true →
        (phase6_record_outputs env tmpDir crit).2 =
          .ok ⟨phase6_header crit.critical_event_index (crit.critical_event_index - 1),
            env.fileContents (tmpDir ++ "/" ++ "final_target_for_stacktraces" ++ ".stack1"),
            env.fileContents (tmpDir ++ "/" ++ "final_target_for_stacktraces" ++ ".stack2")⟩) := by
  have hsub : rust_checked_sub crit.critical_event_index 1 =
      some (crit.critical_event_index - 1) := by
    rw [rust_checked_sub, if_pos hci]
  refine ⟨?_, ?_, ?_⟩
  · rw [launch_for_stacktraces, hsub]
  · intro hm
    rw [phase6_record_outputs, hsub, launch_for_stacktraces, hsub]
    simp [hm]
  · intro hm
    rw [phase6_record_outputs, hsub, launch_for_stacktraces, hsub]
    simp [hm]

/-- Witness for C6: at critical event index 1, an always-matching oracle
yields the report built from the header and the two stack files, and a
never-matching oracle yields the internal error. -/
theorem phase6_report_and_internal_error_witness :
    (phase6_record_outputs envStack "tmp" ⟨[1, 2], [2, 1], 1⟩).2 =
      .ok ⟨phase6_header 1 0,
        envStack.fileContents ("tmp" ++ "/" ++ "final_target_for_stacktraces" ++ ".stack1"),
        envStack.fileContents ("tmp" ++ "/" ++ "final_target_for_stacktraces" ++ ".stack2")⟩
    ∧ (phase6_record_outputs envLen2 "tmp" ⟨[1, 2], [2, 1], 1⟩).2 =
      .error "Internal error! Final run did NOT match the criteria as expected!" :=
  ⟨(phase6_report_and_internal_error envStack "tmp" ⟨[1, 2], [2, 1], 1⟩ (by decide)).2.2 rfl,
    (phase6_report_and_internal_error envLen2 "tmp" ⟨[1, 2], [2, 1], 1⟩ (by decide)).2.1 rfl⟩

/-- C10: phase 6 requires a positive critical event index: at index 0 both
the header construction in `phase6_record_outputs` and
`launch_for_stacktraces` underflow the unsigned subtraction (a panic, not the
normal internal-error branch), and for every positive index the phase never
produces the underflow panic. -/
theorem phase6_index_zero_underflows (env : Env) (tmpDir : String) (f p : List Nat) :
    ((phase6_record_outputs env tmpDir ⟨f, p, 0⟩).2 =
        .error "panicked at attempt to subtract with overflow")
    ∧ (launch_for_stacktraces env tmpDir "final_target_for_stacktraces" f 0 =
        .error "panicked at attempt to subtract with overflow")
    ∧ (∀ ci, 1 ≤ ci →
        (phase6_record_outputs env tmpDir ⟨f, p, ci⟩).2 ≠
          .error "panicked at attempt to subtract with overflow") := by
  refine ⟨rfl, rfl, ?_⟩
  intro ci hci h
  have hsub : rust_checked_sub ci 1 = some (ci - 1) := by
    rw [rust_checked_sub, if_pos hci]
  rw [phase6_record_outputs] at h
  simp only [hsub, launch_for_stacktraces] at h
  rcases hm : env.schedMatches f with _ | _ <;> rw [hm] at h <;> simp at h

/-- Witness for C10: at index 0 the phase panics with the underflow message;
at index 1 it does not. -/
theorem phase6_index_zero_underflows_witness :
    ((phase6_record_outputs envLen2 "tmp" ⟨[1], [2], 0⟩).2 =
        .error "panicked at attempt to subtract with overflow")
    ∧ (phase6_record_outputs envLen2 "tmp" ⟨[1], [2], 1⟩).2 ≠
        .error "panicked at attempt to subtract with overflow" :=
  ⟨(phase6_index_zero_underflows envLen2 "tmp" [1] [2]).1,
    (phase6_index_zero_underflows envLen2 "tmp" [1] [2]).2.2 1 (by decide)⟩

end HermitAnalyze
